import Mathlib

/-!
Shallow embedding of `convert_alarm.py` (ArchLinuxARM_Image_Converter).

The script is a sequential pipeline: check dependencies, download the
root-filesystem archive with curl, allocate a qcow2 container with
qemu-img, and partition it by feeding a fixed keystroke script to gdisk.
External effects (tool exit status, statvfs results, the interactive
overwrite answer) are inputs collected in an `Env` record; the filesystem
is a map from path to the size of the file stored there; each embedded
function returns its outcome (normal return, `sys.exit(code)`, or an
uncaught exception), the resulting filesystem, and a trace of the
observable actions it performed, in order.
-/

/-- ASCII decimal digit value of a character. -/
def digitVal (c : Char) : Nat := c.toNat - 48

/-- Whitespace accepted by Python `int(str)` around the number (ASCII part). -/
def isPyWs (c : Char) : Bool :=
  c == ' ' || c == '\t' || c == '\n' || c == '\r' || c == '\x0b' || c == '\x0c'

/-- Digit run of a Python integer literal: digits optionally separated by
single underscores (an underscore must sit between two digits).  Consumes
greedily; returns the accumulated value and the unconsumed remainder, or
`none` when an underscore is not followed by a digit. -/
def pyDigitsLoop : Nat → List Char → Option (Nat × List Char)
  | acc, [] => some (acc, [])
  | acc, c :: rest =>
    if c.isDigit then pyDigitsLoop (acc * 10 + digitVal c) rest
    else if c == '_' then
      match rest with
      | d :: r => if d.isDigit then pyDigitsLoop (acc * 10 + digitVal d) r else none
      | [] => none
    else some (acc, c :: rest)

/-- Unsigned part of Python `int(str)`: must start with a digit, and after
the digit run only trailing whitespace may remain. -/
def pyNatPart (l : List Char) : Option Nat :=
  match l with
  | [] => none
  | c :: r =>
    if c.isDigit then
      match pyDigitsLoop (digitVal c) r with
      | some (n, rest) => if rest.all isPyWs then some n else none
      | none => none
    else none

/-- Python `int(str)` on a character list: optional leading whitespace, an
optional sign directly followed by the digits, optional trailing
whitespace.  `none` models `ValueError`.  (Python additionally accepts
non-ASCII digits and whitespace; those are outside this model.) -/
def pyIntL (l : List Char) : Option Int :=
  match l.dropWhile isPyWs with
  | [] => none
  | c :: r =>
    if c == '+' then (pyNatPart r).map (fun n => (n : Int))
    else if c == '-' then (pyNatPart r).map (fun n => -(n : Int))
    else (pyNatPart (c :: r)).map (fun n => (n : Int))

/-- `int(s)` on a string. -/
def pyInt (s : String) : Option Int := pyIntL s.data

/-- The size validation of `create_image` (convert_alarm.py lines 137-144):
`size_num = int(size[:-1])`, `size_unit = size[-1].upper()`, and the unit
must be one of K, M, G, T; any `ValueError`/`IndexError` yields `none`
(the caller logs and exits 1). -/
def parseSize (size : String) : Option (Int × Char) :=
  match pyIntL size.data.dropLast with
  | none => none
  | some n =>
    match size.data.getLast? with
    | none => none
    | some c =>
      if c.toUpper ∈ (['K', 'M', 'G', 'T'] : List Char) then some (n, c.toUpper) else none

/-- Value of a digit run, most significant first. -/
def digitsVal (l : List Char) (acc : Nat) : Nat :=
  l.foldl (fun a c => a * 10 + digitVal c) acc

/-- Size-token grammar transcribed from the specification text: a nonempty
run of decimal digits denoting a positive value, followed by exactly one
unit letter among K, M, G, T, case-insensitive. -/
def specSizeToken (s : String) : Option (Nat × Char) :=
  match s.data.getLast? with
  | none => none
  | some c =>
    let ds := s.data.dropLast
    if ds ≠ [] ∧ ds.all Char.isDigit = true ∧ 0 < digitsVal ds 0
        ∧ c.toUpper ∈ (['K', 'M', 'G', 'T'] : List Char)
    then some (digitsVal ds 0, c.toUpper)
    else none

/-- `posixpath.dirname` on a character list: everything up to the last
slash, with trailing slashes stripped unless the head is all slashes. -/
def pyDirnameL (l : List Char) : List Char :=
  let head := (l.reverse.dropWhile (fun c => !(c == '/'))).reverse
  if head.all (fun c => c == '/') then head
  else (head.reverse.dropWhile (fun c => c == '/')).reverse

/-- `os.path.dirname` (POSIX flavour) on a string. -/
def pyDirname (p : String) : String := String.mk (pyDirnameL p.data)

/-- A filesystem: maps each path to the size of the file stored there,
`none` when no file exists at that path. -/
abbrev FS := String → Option Nat

/-- Write (`some v`) or delete (`none`) the entry at one path. -/
def FS.set (fs : FS) (p : String) (v : Option Nat) : FS :=
  fun q => if q = p then v else fs q

/-- Python-level exceptions that can escape the embedded functions. -/
inductive PyExc where
  | fileNotFoundError
  | keyboardInterrupt
  deriving DecidableEq

/-- Exit status of one external tool invocation, as the pipeline observes
it: clean exit, non-zero exit (`CalledProcessError`), or a
`KeyboardInterrupt` delivered while the tool runs. -/
inductive ToolOutcome where
  | ok
  | fail
  | interrupt
  deriving DecidableEq

/-- How a run of an embedded function ends: normal return, `sys.exit code`,
or an uncaught exception (the interpreter then terminates non-zero). -/
inductive Outcome where
  | done
  | exited (code : Nat)
  | raised (e : PyExc)
  deriving DecidableEq

/-- Observable actions, recorded in order of occurrence. -/
inductive Event where
  | depsChecked
  | statvfsCalled (dir : String)
  | spaceCompared (available required : Nat)
  | curlInvoked (url dest : String)
  | sizeParsed (token : String) (ok : Bool)
  | promptShown (path : String)
  | qemuInvoked (path size : String)
  | gdiskInvoked (path script : String)
  | fileRemoved (path : String)
  deriving DecidableEq

/-- Events belonging to the fetch stage (`download_alarm`). -/
def Event.isFetch : Event → Bool
  | .statvfsCalled _ => true
  | .spaceCompared _ _ => true
  | .curlInvoked _ _ => true
  | _ => false

/-- Size-validation events. -/
def Event.isSizeParsed : Event → Bool
  | .sizeParsed _ _ => true
  | _ => false

/-- File-deletion events. -/
def Event.isRemove : Event → Bool
  | .fileRemoved _ => true
  | _ => false

/-- External-world inputs of one run: whether the dependency check passes,
what `os.statvfs` reports per directory (`f_frsize`, `f_bavail`, or an
exception), each tool's exit behaviour, the file sizes the tools leave
behind, and the interactive answer to the overwrite prompt. -/
structure Env where
  depsOk : Bool
  statvfs : String → Except PyExc (Nat × Nat)
  curl : ToolOutcome
  curlWrote : Option Nat
  downloadSize : Nat
  qemuImg : ToolOutcome
  qemuWrote : Option Nat
  allocSize : Nat
  gdisk : ToolOutcome
  userInput : String

/-- `REQUIRED_SPACE_GB = 2` (convert_alarm.py line 27). -/
def REQUIRED_SPACE_GB : Nat := 2

/-- `DEFAULT_IMAGE_SIZE = "128G"` (line 28). -/
def DEFAULT_IMAGE_SIZE : String := "128G"

/-- `DEFAULT_OUTPUT_FILE = "alarm.qcow2"` (line 29). -/
def DEFAULT_OUTPUT_FILE : String := "alarm.qcow2"

/-- URL of the `official` mirror (line 31). -/
def officialUrl : String := "http://os.archlinuxarm.org/os/ArchLinuxARM-aarch64-latest.tar.gz"

/-- URL of the `tsinghua` mirror (line 32). -/
def tsinghuaUrl : String := "https://mirrors.tuna.tsinghua.edu.cn/archlinuxarm/os/ArchLinuxARM-aarch64-latest.tar.gz"

/-- The `MIRRORS` dictionary (lines 30-33). -/
def MIRRORS : List (String × String) :=
  [("official", officialUrl), ("tsinghua", tsinghuaUrl)]

/-- `MIRRORS.get(mirror, MIRRORS["tsinghua"])` (line 105): dictionary
lookup with the tsinghua URL as the default for missing keys. -/
def mirrorsGet (mirror : String) : String :=
  ((MIRRORS.lookup mirror).getD tsinghuaUrl)

/-- `REQUIRED_SPACE_GB * 1024**3` (line 108). -/
def requiredDownloadSpace : Nat := REQUIRED_SPACE_GB * 1024 ^ 3

/-- `download_alarm` (convert_alarm.py lines 99-129).  Resolves the mirror
URL via `MIRRORS.get` with the tsinghua default, queries `os.statvfs` on
`os.path.dirname(output_file)` (an exception there is uncaught), exits 1
when the available space is below the 2 GiB threshold, then runs curl.
On a curl failure or a `KeyboardInterrupt` the destination file, if
present, is removed and the run exits 1. -/
def download_alarm (output_file mirror : String) (env : Env) (fs : FS) :
    Outcome × FS × List Event :=
  match env.statvfs (pyDirname output_file) with
  | .error e => (.raised e, fs, [.statvfsCalled (pyDirname output_file)])
  | .ok (frsize, bavail) =>
    let available := frsize * bavail
    let tr0 := [Event.statvfsCalled (pyDirname output_file),
                Event.spaceCompared available requiredDownloadSpace]
    if available < requiredDownloadSpace then
      (.exited 1, fs, tr0)
    else
      let tr1 := tr0 ++ [Event.curlInvoked (mirrorsGet mirror) output_file]
      match env.curl with
      | .ok => (.done, fs.set output_file (some env.downloadSize), tr1)
      | .fail | .interrupt =>
        let fs1 : FS :=
          match env.curlWrote with
          | some k => fs.set output_file (some k)
          | none => fs
        if (fs1 output_file).isSome then
          (.exited 1, fs1.set output_file none, tr1 ++ [Event.fileRemoved output_file])
        else
          (.exited 1, fs1, tr1)

/-- The fixed keystroke script fed to gdisk on stdin (line 175):
`b"o\nn\n\n\n+300M\nef00\nn\n\n\n\n\nw\ny\n"`. -/
def gdiskInput : String := "o\nn\n\n\n+300M\nef00\nn\n\n\n\n\nw\ny\n"

/-- `input(...).strip().lower()` applied to the overwrite answer (line 150):
surrounding whitespace dropped, characters lowercased. -/
def pyAnswer (s : String) : String :=
  String.mk (((s.data.dropWhile isPyWs).reverse.dropWhile isPyWs).reverse.map Char.toLower)

/-- `create_image` (convert_alarm.py lines 131-183).  Validates the size
token (exit 1 on failure), prompts for overwrite confirmation when the
output path already exists (exit 0 unless the stripped, lowercased answer
is `y`), runs `qemu-img create` (on failure or interrupt the file at the
output path, if any, is removed and the run exits 1), then drives gdisk
with the fixed keystroke script (on non-zero exit the run exits 1 and the
image file is kept; an interrupt there is uncaught). -/
def create_image (output_file size : String) (env : Env) (fs : FS) :
    Outcome × FS × List Event :=
  match parseSize size with
  | none => (.exited 1, fs, [.sizeParsed size false])
  | some _ =>
    let tr0 := [Event.sizeParsed size true]
    let promptTr := if (fs output_file).isSome then tr0 ++ [Event.promptShown output_file] else tr0
    if ((fs output_file).isSome && !(pyAnswer env.userInput == "y")) then
      (.exited 0, fs, promptTr)
    else
      let tr1 := promptTr ++ [Event.qemuInvoked output_file size]
      match env.qemuImg with
      | .ok =>
        let fs1 := fs.set output_file (some env.allocSize)
        let tr2 := tr1 ++ [Event.gdiskInvoked output_file gdiskInput]
        match env.gdisk with
        | .ok => (.done, fs1, tr2)
        | .fail => (.exited 1, fs1, tr2)
        | .interrupt => (.raised .keyboardInterrupt, fs1, tr2)
      | .fail | .interrupt =>
        let fs1 : FS :=
          match env.qemuWrote with
          | some k => fs.set output_file (some k)
          | none => fs
        if (fs1 output_file).isSome then
          (.exited 1, fs1.set output_file none, tr1 ++ [Event.fileRemoved output_file])
        else
          (.exited 1, fs1, tr1)

/-- `tar_file = "ArchLinuxARM-aarch64-latest.tar.gz"` (line 212). -/
def tarFile : String := "ArchLinuxARM-aarch64-latest.tar.gz"

/-- The parsed command-line arguments (lines 193-204).  `force` is the
`--force` flag; argparse stores it, whether or not the body reads it. -/
structure Args where
  output : String
  size : String
  mirror : String
  force : Bool

/-- The values argparse accepts for `--mirror` (line 198). -/
def mirrorChoices : List String := ["official", "tsinghua"]

/-- The body of `main` (convert_alarm.py lines 185-221).  argparse exits with status 2
on a `--mirror` value outside its choices; then the dependency check runs
(exit 1 on failure); the download stage runs only when no file exists at
`tar_file`; finally `create_image` runs on the requested output and size. -/
def mainRun (args : Args) (env : Env) (fs : FS) : Outcome × FS × List Event :=
  if args.mirror ∉ mirrorChoices then (.exited 2, fs, [])
  else if !env.depsOk then (.exited 1, fs, [Event.depsChecked])
  else
    let dl := if (fs tarFile).isNone then download_alarm tarFile args.mirror env fs
              else (Outcome.done, fs, ([] : List Event))
    if dl.1 = .done then
      let ci := create_image args.output args.size env dl.2.1
      (ci.1, ci.2.1, Event.depsChecked :: (dl.2.2 ++ ci.2.2))
    else
      (dl.1, dl.2.1, Event.depsChecked :: dl.2.2)

/-- One gdisk command, as the specification describes the partitioning
interaction: create a new empty GPT table, create a partition (answers to
the number, first-sector, last-sector and type-code prompts, empty string
meaning the default), write the table, confirm. -/
inductive GdiskCmd where
  | newTable
  | newPart (num first last typeCode : String)
  | writeTable
  | confirmYes
  deriving DecidableEq

/-- Keystrokes realizing one command at the gdisk prompt. -/
def gdiskCmdKeys : GdiskCmd → String
  | .newTable => "o\n"
  | .newPart a b c d => "n\n" ++ a ++ "\n" ++ b ++ "\n" ++ c ++ "\n" ++ d ++ "\n"
  | .writeTable => "w\n"
  | .confirmYes => "y\n"

/-- Keystrokes realizing a command sequence. -/
def gdiskKeystrokes (plan : List GdiskCmd) : String :=
  String.join (plan.map gdiskCmdKeys)

/-- The layout the specification prescribes: new empty GPT table; partition
1 with default number and first sector, last sector `+300M`, type `ef00`
(EFI System Partition); partition 2 all defaults (remaining space, default
type); write; confirm — boot partition first. -/
def bootFirstPlan : List GdiskCmd :=
  [.newTable, .newPart "" "" "+300M" "ef00", .newPart "" "" "" "", .writeTable, .confirmYes]

/-- An outcome whose process-level exit status is non-zero: not a normal
return and not `sys.exit(0)` (an uncaught exception also terminates the
interpreter with a non-zero status). -/
def nonZeroExit (o : Outcome) : Prop := o ≠ .done ∧ o ≠ .exited 0

/-- A run environment in which every external step succeeds. -/
def envOk : Env :=
  { depsOk := true
    statvfs := fun _ => .ok (4096, 10 ^ 9)
    curl := .ok
    curlWrote := none
    downloadSize := 1000
    qemuImg := .ok
    qemuWrote := none
    allocSize := 200000
    gdisk := .ok
    userInput := "y" }

/-- The empty filesystem. -/
def fsEmpty : FS := fun _ => none

/-- Like `envOk`, except that `statvfs` on the empty string fails with
`FileNotFoundError`, as POSIX prescribes for an empty path. -/
def envPosix : Env :=
  { envOk with statvfs := fun d => if d = "" then .error .fileNotFoundError else .ok (4096, 10 ^ 9) }

/-- Like `envOk`, but the overwrite prompt is answered with `n`. -/
def envDecline : Env := { envOk with userInput := "n" }

/-- A filesystem holding the archive and a pre-existing output image. -/
def fsWithImage : FS :=
  fun p => if p = "alarm.qcow2" then some 7 else if p = tarFile then some 9 else none

/-- A digit character is distinct (under `==`) from any non-digit. -/
theorem isDigit_beq_false {c d : Char} (h : c.isDigit = true) (hd : d.isDigit = false) :
    (c == d) = false := by
  cases hcd : c == d with
  | false => rfl
  | true =>
    rw [eq_of_beq hcd] at h
    rw [h] at hd
    exact absurd hd (by simp)

/-- A digit character is not Python whitespace. -/
theorem isDigit_not_ws {c : Char} (h : c.isDigit = true) : isPyWs c = false := by
  unfold isPyWs
  rw [isDigit_beq_false h (by decide), isDigit_beq_false h (by decide),
      isDigit_beq_false h (by decide), isDigit_beq_false h (by decide),
      isDigit_beq_false h (by decide), isDigit_beq_false h (by decide)]
  rfl

/-- On an all-digit list the digit-run loop consumes everything and
accumulates the decimal value. -/
theorem pyDigitsLoop_all_digits :
    ∀ (l : List Char) (acc : Nat), l.all Char.isDigit = true →
      pyDigitsLoop acc l = some (digitsVal l acc, [])
  | [], _, _ => rfl
  | c :: r, acc, h => by
    rw [List.all_cons, Bool.and_eq_true] at h
    obtain ⟨hc, hr⟩ := h
    rw [pyDigitsLoop.eq_def]
    dsimp only
    rw [if_pos hc, pyDigitsLoop_all_digits r (acc * 10 + digitVal c) hr]
    simp [digitsVal]

/-- The unsigned-number parse of Python `int` on a nonempty all-digit list. -/
theorem pyNatPart_all_digits (l : List Char) (h : l.all Char.isDigit = true) (hne : l ≠ []) :
    pyNatPart l = some (digitsVal l 0) := by
  cases l with
  | nil => exact absurd rfl hne
  | cons c r =>
    rw [List.all_cons, Bool.and_eq_true] at h
    obtain ⟨hc, hr⟩ := h
    unfold pyNatPart
    dsimp only
    rw [if_pos hc, pyDigitsLoop_all_digits r (digitVal c) hr]
    simp [digitsVal, Nat.zero_mul]

/-- Python `int` accepts any nonempty all-digit list and returns its
decimal value. -/
theorem pyIntL_all_digits (l : List Char) (h : l.all Char.isDigit = true) (hne : l ≠ []) :
    pyIntL l = some ((digitsVal l 0 : Nat) : Int) := by
  cases l with
  | nil => exact absurd rfl hne
  | cons c r =>
    rw [List.all_cons, Bool.and_eq_true] at h
    obtain ⟨hc, hr⟩ := h
    have hws : isPyWs c = false := isDigit_not_ws hc
    have hplus : (c == '+') = false := isDigit_beq_false hc (by decide)
    have hminus : (c == '-') = false := isDigit_beq_false hc (by decide)
    have hall : (c :: r).all Char.isDigit = true := by
      rw [List.all_cons, Bool.and_eq_true]; exact ⟨hc, hr⟩
    unfold pyIntL
    rw [List.dropWhile_cons, hws]
    simp only [Bool.false_eq_true, if_false, hplus, hminus]
    rw [pyNatPart_all_digits (c :: r) hall (by simp)]
    rfl

/-- Every token of the specification grammar is accepted by the source
size validation, with the same magnitude and unit. -/
theorem parseSize_of_spec (s : String) (n : Nat) (u : Char)
    (hs : specSizeToken s = some (n, u)) : parseSize s = some ((n : Int), u) := by
  unfold specSizeToken at hs
  cases hgl : s.data.getLast? with
  | none => rw [hgl] at hs; exact absurd hs (by simp)
  | some c =>
    rw [hgl] at hs
    simp only at hs
    split at hs
    case isTrue hcond =>
      obtain ⟨hne, hdig, _, hmem⟩ := hcond
      injection hs with hs'
      have h1 : digitsVal s.data.dropLast 0 = n := congrArg Prod.fst hs'
      have h2 : c.toUpper = u := congrArg Prod.snd hs'
      unfold parseSize
      rw [pyIntL_all_digits _ hdig hne, hgl]
      dsimp only
      rw [if_pos hmem, h1, h2]
    case isFalse => exact absurd hs (by simp)

/-- `posixpath.dirname` of a path containing no slash is empty. -/
theorem pyDirnameL_no_slash (l : List Char) (h : '/' ∉ l) : pyDirnameL l = [] := by
  unfold pyDirnameL
  have hdrop : l.reverse.dropWhile (fun c => !(c == '/')) = [] := by
    rw [List.dropWhile_eq_nil_iff]
    intro x hx
    have hxl : x ∈ l := List.mem_reverse.mp hx
    have hne : x ≠ '/' := fun he => h (he ▸ hxl)
    simp [hne]
  rw [hdrop]
  simp

/-- The orchestrator passes a bare filename to the fetch stage; its
directory component is the empty string. -/
theorem pyDirname_tarFile : pyDirname tarFile = "" := by decide

/-- The image-creation stage performs no fetch-stage actions. -/
theorem create_image_no_fetch (o s : String) (env : Env) (fs : FS) :
    (create_image o s env fs).2.2.all (fun e => !e.isFetch) = true := by
  unfold create_image
  dsimp only
  repeat' split
  all_goals simp [Event.isFetch]

/-- A `sys.exit` with a non-zero code is a non-zero exit. -/
theorem nonZeroExit_exited {n : Nat} (h : n ≠ 0) : nonZeroExit (.exited n) :=
  ⟨by simp, by simp [h]⟩

/-- An uncaught exception terminates the interpreter non-zero. -/
theorem nonZeroExit_raised (e : PyExc) : nonZeroExit (.raised e) :=
  ⟨by simp, by simp⟩

/-- C1 counterexample: a run with the invalid size token `abc` in which the
download stage executes before any size validation.  Under the real POSIX
behaviour of `statvfs` on the empty directory string (first conjuncts) the
run enters the download stage and dies there with an uncaught
`FileNotFoundError` — no size validation ever happens, so the non-zero
exit is not produced by size validation.  Were `statvfs` to succeed (last
conjuncts), the download stage would write the archive file before the
invalid size is ever examined, so the pipeline would mutate the
filesystem and only then exit non-zero. -/
theorem invalidSize_run_enters_download_before_validation :
    (mainRun ⟨"alarm.qcow2", "abc", "tsinghua", false⟩ envPosix fsEmpty).1
      = .raised .fileNotFoundError ∧
    (mainRun ⟨"alarm.qcow2", "abc", "tsinghua", false⟩ envPosix fsEmpty).2.2
      = [.depsChecked, .statvfsCalled ""] ∧
    ((mainRun ⟨"alarm.qcow2", "abc", "tsinghua", false⟩ envPosix fsEmpty).2.2.all
      (fun e => !e.isSizeParsed)) = true ∧
    (mainRun ⟨"alarm.qcow2", "abc", "tsinghua", false⟩ envOk fsEmpty).1 = .exited 1 ∧
    fsEmpty tarFile = none ∧
    (mainRun ⟨"alarm.qcow2", "abc", "tsinghua", false⟩ envOk fsEmpty).2.1 tarFile = some 1000 := by
  refine ⟨by decide, by decide, by decide, by decide, rfl, by decide⟩

/-- C1 (amended): with an invalid size token the pipeline always terminates
with a non-zero status and without any filesystem mutation, given the real
environment fact that `statvfs` of the empty directory string (the
directory component of the bare archive filename) fails; the non-zero exit
is not always produced by size validation, which sits in the image stage
after the download stage. -/
theorem invalidSize_exits_nonzero_no_mutation (args : Args) (env : Env) (fs : FS)
    (hvfs : env.statvfs "" = .error .fileNotFoundError)
    (hsz : parseSize args.size = none) :
    (mainRun args env fs).2.1 = fs ∧ nonZeroExit (mainRun args env fs).1 := by
  unfold mainRun
  by_cases hm : args.mirror ∉ mirrorChoices
  · rw [if_pos hm]
    exact ⟨rfl, nonZeroExit_exited (by decide)⟩
  · rw [if_neg hm]
    by_cases hd : (!env.depsOk) = true
    · rw [if_pos hd]
      exact ⟨rfl, nonZeroExit_exited (by decide)⟩
    · rw [if_neg hd]
      dsimp only
      by_cases ht : (fs tarFile).isNone
      · have hdl : download_alarm tarFile args.mirror env fs
            = (.raised .fileNotFoundError, fs, [.statvfsCalled ""]) := by
          unfold download_alarm
          rw [pyDirname_tarFile, hvfs]
        rw [if_pos ht, hdl]
        dsimp only
        rw [if_neg (by decide : ¬ (Outcome.raised .fileNotFoundError = Outcome.done))]
        exact ⟨rfl, nonZeroExit_raised _⟩
      · rw [if_neg ht]
        dsimp only
        rw [if_pos rfl]
        have hci : create_image args.output args.size env fs
            = (.exited 1, fs, [.sizeParsed args.size false]) := by
          unfold create_image
          rw [hsz]
        rw [hci]
        exact ⟨rfl, nonZeroExit_exited (by decide)⟩

/-- C1 witness: the amended theorem applied to the concrete invalid-size
run of the counterexample. -/
theorem invalidSize_exits_nonzero_no_mutation_witness :
    (mainRun ⟨"alarm.qcow2", "abc", "tsinghua", false⟩ envPosix fsEmpty).2.1 = fsEmpty ∧
    nonZeroExit (mainRun ⟨"alarm.qcow2", "abc", "tsinghua", false⟩ envPosix fsEmpty).1 :=
  invalidSize_exits_nonzero_no_mutation ⟨"alarm.qcow2", "abc", "tsinghua", false⟩
    envPosix fsEmpty rfl (by decide)

/-- C2 counterexample: `0G` is not a token of the specification grammar
(its magnitude is not a positive integer), yet the source size validation
accepts it with magnitude 0; likewise `-5G` and the padded ` +5G` are
accepted.  Parsing therefore does not succeed exactly on the strings of
the form positive-integer-then-unit. -/
theorem nonpositive_size_tokens_accepted :
    specSizeToken "0G" = none ∧ parseSize "0G" = some (0, 'G') ∧
    specSizeToken "-5G" = none ∧ parseSize "-5G" = some (-5, 'G') ∧
    specSizeToken " +5G" = none ∧ parseSize " +5G" = some (5, 'G') := by
  refine ⟨by decide, by decide, by decide, by decide, by decide, by decide⟩

/-- C2 (amended): every token of the spec grammar `<positive integer><K|M|G|T>`
(unit case-insensitive) is accepted with exactly the grammar magnitude and
unit, and on every rejected string the image stage exits 1 without running
any tool and without touching the filesystem (no default is substituted);
however the accepted set is strictly larger than the grammar, because the
magnitude is read with Python `int`, which also accepts zero, negative,
sign-prefixed, whitespace-padded and underscore-grouped magnitudes. -/
theorem size_parse_accepts_spec_and_rejection_stops (s : String) (n : Nat) (u : Char)
    (out : String) (env : Env) (fs : FS) :
    (specSizeToken s = some (n, u) → parseSize s = some ((n : Int), u)) ∧
    (parseSize s = none →
      create_image out s env fs = (.exited 1, fs, [.sizeParsed s false])) := by
  constructor
  · exact parseSize_of_spec s n u
  · intro hnone
    unfold create_image
    rw [hnone]

/-- C2 witness: the amended theorem applied at the valid token `128G` and
at the rejected string `abc`. -/
theorem size_parse_accepts_spec_and_rejection_stops_witness :
    parseSize "128G" = some ((128 : Int), 'G') ∧
    create_image "alarm.qcow2" "abc" envOk fsEmpty
      = (.exited 1, fsEmpty, [.sizeParsed "abc" false]) :=
  ⟨(size_parse_accepts_spec_and_rejection_stops "128G" 128 'G' "alarm.qcow2" envOk fsEmpty).1
      (by decide),
   (size_parse_accepts_spec_and_rejection_stops "abc" 0 'K' "alarm.qcow2" envOk fsEmpty).2
      (by decide)⟩

/-- C3: the `--force` flag is parsed but never consulted by the pipeline
body — two runs differing only in the flag are identical — so with the
flag set, a pre-existing output file still triggers the overwrite prompt;
answering `n` exits the whole pipeline with status 0 and leaves the
pre-existing file unmodified.  This contradicts the flag's own help text
(overwrite without prompting). -/
theorem force_flag_never_consulted :
    (∀ (o s m : String) (env : Env) (fs : FS),
      mainRun ⟨o, s, m, true⟩ env fs = mainRun ⟨o, s, m, false⟩ env fs) ∧
    (mainRun ⟨"alarm.qcow2", "128G", "tsinghua", true⟩ envDecline fsWithImage).1 = .exited 0 ∧
    Event.promptShown "alarm.qcow2"
      ∈ (mainRun ⟨"alarm.qcow2", "128G", "tsinghua", true⟩ envDecline fsWithImage).2.2 ∧
    (mainRun ⟨"alarm.qcow2", "128G", "tsinghua", true⟩ envDecline fsWithImage).2.1 "alarm.qcow2"
      = some 7 :=
  ⟨fun _ _ _ _ _ => rfl, by decide, by decide, by decide⟩

/-- C4 counterexample: the fetch stage does not fail fast on an unknown
mirror identifier; `MIRRORS.get` substitutes the tsinghua default URL, so
`download_alarm` with the unknown identifier `bogus` completes and invokes
the transfer with the tsinghua URL. -/
theorem unknown_mirror_substitutes_default :
    mirrorsGet "bogus" = tsinghuaUrl ∧
    (download_alarm "out.tar.gz" "bogus" envOk fsEmpty).1 = .done ∧
    Event.curlInvoked tsinghuaUrl "out.tar.gz"
      ∈ (download_alarm "out.tar.gz" "bogus" envOk fsEmpty).2.2 :=
  ⟨by decide, by decide, by decide⟩

/-- C4 (amended): identifiers outside the mirror registry are rejected
only at the command-line layer, where argparse restricts the mirror
argument to its two choices and exits with status 2 before any stage runs;
the fetch function itself substitutes the tsinghua default URL for any
unknown identifier instead of failing. -/
theorem unknown_mirror_rejected_only_by_cli (m : String) (env : Env) (fs : FS) (args : Args)
    (h1 : m ≠ "official") (h2 : m ≠ "tsinghua") (ha : args.mirror = m) :
    mirrorsGet m = tsinghuaUrl ∧ mainRun args env fs = (.exited 2, fs, []) := by
  constructor
  · simp [mirrorsGet, MIRRORS, List.lookup,
      beq_eq_false_iff_ne.mpr h1, beq_eq_false_iff_ne.mpr h2]
  · have hnm : args.mirror ∉ mirrorChoices := by
      rw [ha]
      simp [mirrorChoices, h1, h2]
    unfold mainRun
    rw [if_pos hnm]

/-- C4 witness: the amended theorem applied at the unknown identifier
`bogus`. -/
theorem unknown_mirror_rejected_only_by_cli_witness :
    mirrorsGet "bogus" = tsinghuaUrl ∧
    mainRun ⟨"alarm.qcow2", "128G", "bogus", false⟩ envOk fsEmpty = (.exited 2, fsEmpty, []) :=
  unknown_mirror_rejected_only_by_cli "bogus" envOk fsEmpty
    ⟨"alarm.qcow2", "128G", "bogus", false⟩ (by decide) (by decide) rfl

/-- C5: whenever the allocation tool (`qemu-img create`) fails or is
interrupted — in any run that reaches it, i.e. the size token parsed and
the overwrite gate passed — the image stage removes whatever file is at
the output path and exits 1, so no file remains at the target path. -/
theorem failed_allocation_leaves_no_file (out size : String) (env : Env) (fs : FS)
    (v : Int × Char) (hp : parseSize size = some v)
    (hok : ((fs out).isSome && !(pyAnswer env.userInput == "y")) = false)
    (hq : env.qemuImg ≠ .ok) :
    (create_image out size env fs).1 = .exited 1 ∧
    (create_image out size env fs).2.1 out = none := by
  unfold create_image
  rw [hp]
  dsimp only
  rw [if_neg (by simp [hok])]
  cases hq' : env.qemuImg with
  | ok => exact absurd hq' hq
  | fail =>
    dsimp only
    cases hw : env.qemuWrote with
    | some k =>
      dsimp only
      rw [if_pos (by simp [FS.set])]
      exact ⟨rfl, by simp [FS.set]⟩
    | none =>
      dsimp only
      by_cases hfo : (fs out).isSome = true
      · rw [if_pos hfo]
        exact ⟨rfl, by simp [FS.set]⟩
      · rw [if_neg hfo]
        refine ⟨rfl, ?_⟩
        cases hfs : fs out with
        | none => exact hfs
        | some k => rw [hfs] at hfo; simp at hfo
  | interrupt =>
    dsimp only
    cases hw : env.qemuWrote with
    | some k =>
      dsimp only
      rw [if_pos (by simp [FS.set])]
      exact ⟨rfl, by simp [FS.set]⟩
    | none =>
      dsimp only
      by_cases hfo : (fs out).isSome = true
      · rw [if_pos hfo]
        exact ⟨rfl, by simp [FS.set]⟩
      · rw [if_neg hfo]
        refine ⟨rfl, ?_⟩
        cases hfs : fs out with
        | none => exact hfs
        | some k => rw [hfs] at hfo; simp at hfo

/-- An environment in which `qemu-img create` fails. -/
def envQemuFail : Env := { envOk with qemuImg := .fail }

/-- C5 witness: the theorem applied to a concrete failing allocation. -/
theorem failed_allocation_leaves_no_file_witness :
    (create_image "img.qcow2" "128G" envQemuFail fsEmpty).1 = .exited 1 ∧
    (create_image "img.qcow2" "128G" envQemuFail fsEmpty).2.1 "img.qcow2" = none :=
  failed_allocation_leaves_no_file "img.qcow2" "128G" envQemuFail fsEmpty
    (128, 'G') (by decide) (by decide) (by decide)

/-- C6: whenever the partitioning tool exits non-zero, the image stage
exits 1 but performs no deletion: the allocated disk image is still
present at the output path afterward, with its post-allocation size. -/
theorem failed_partitioning_keeps_image (out size : String) (env : Env) (fs : FS)
    (v : Int × Char) (hp : parseSize size = some v)
    (hok : ((fs out).isSome && !(pyAnswer env.userInput == "y")) = false)
    (hq : env.qemuImg = .ok) (hg : env.gdisk = .fail) :
    (create_image out size env fs).1 = .exited 1 ∧
    (create_image out size env fs).2.1 out = some env.allocSize ∧
    ((create_image out size env fs).2.2.all (fun e => !e.isRemove)) = true := by
  unfold create_image
  rw [hp]
  dsimp only
  rw [if_neg (by simp [hok]), hq]
  dsimp only
  rw [hg]
  refine ⟨rfl, by simp [FS.set], ?_⟩
  by_cases hfo : (fs out).isSome = true
  · rw [if_pos hfo]
    simp [Event.isRemove]
  · rw [if_neg hfo]
    simp [Event.isRemove]

/-- An environment in which gdisk exits non-zero. -/
def envGdiskFail : Env := { envOk with gdisk := .fail }

/-- C6 witness: the theorem applied to a concrete failing partitioning. -/
theorem failed_partitioning_keeps_image_witness :
    (create_image "img.qcow2" "128G" envGdiskFail fsEmpty).1 = .exited 1 ∧
    (create_image "img.qcow2" "128G" envGdiskFail fsEmpty).2.1 "img.qcow2"
      = some envGdiskFail.allocSize ∧
    ((create_image "img.qcow2" "128G" envGdiskFail fsEmpty).2.2.all
      (fun e => !e.isRemove)) = true :=
  failed_partitioning_keeps_image "img.qcow2" "128G" envGdiskFail fsEmpty
    (128, 'G') (by decide) (by decide) (by decide) (by decide)

/-- C7: the partitioning stage feeds gdisk the single fixed keystroke
script, and that script is exactly the command sequence: new empty GPT
table; partition 1 with last sector `+300M` and type code `ef00` (EFI
System Partition); partition 2 with all defaults (remaining space, default
type); write; confirm — in that order, boot partition first.  The second
conjunct shows the image stage feeding exactly this script to gdisk. -/
theorem partition_script_is_boot_first_gpt_plan :
    gdiskInput = gdiskKeystrokes bootFirstPlan ∧
    Event.gdiskInvoked "disk.qcow2" (gdiskKeystrokes bootFirstPlan)
      ∈ (create_image "disk.qcow2" "128G" envOk fsEmpty).2.2 :=
  ⟨by decide, by decide⟩

/-- C8: whenever the transfer tool exits non-zero or is interrupted —
in any run that passes the space check — the fetch stage removes the
destination file (covering any partial write) and exits 1, so no file
remains at the destination path. -/
theorem failed_download_removes_destination (out m : String) (env : Env) (fs : FS)
    (a b : Nat) (hv : env.statvfs (pyDirname out) = .ok (a, b))
    (hsp : ¬ (a * b < requiredDownloadSpace))
    (hc : env.curl ≠ .ok) :
    (download_alarm out m env fs).1 = .exited 1 ∧
    (download_alarm out m env fs).2.1 out = none := by
  unfold download_alarm
  rw [hv]
  dsimp only
  rw [if_neg hsp]
  cases hc' : env.curl with
  | ok => exact absurd hc' hc
  | fail =>
    dsimp only
    cases hw : env.curlWrote with
    | some k =>
      dsimp only
      rw [if_pos (by simp [FS.set])]
      exact ⟨rfl, by simp [FS.set]⟩
    | none =>
      dsimp only
      by_cases hfo : (fs out).isSome = true
      · rw [if_pos hfo]
        exact ⟨rfl, by simp [FS.set]⟩
      · rw [if_neg hfo]
        refine ⟨rfl, ?_⟩
        cases hfs : fs out with
        | none => exact hfs
        | some k => rw [hfs] at hfo; simp at hfo
  | interrupt =>
    dsimp only
    cases hw : env.curlWrote with
    | some k =>
      dsimp only
      rw [if_pos (by simp [FS.set])]
      exact ⟨rfl, by simp [FS.set]⟩
    | none =>
      dsimp only
      by_cases hfo : (fs out).isSome = true
      · rw [if_pos hfo]
        exact ⟨rfl, by simp [FS.set]⟩
      · rw [if_neg hfo]
        refine ⟨rfl, ?_⟩
        cases hfs : fs out with
        | none => exact hfs
        | some k => rw [hfs] at hfo; simp at hfo

/-- An environment in which the transfer is interrupted by the user. -/
def envCurlInterrupt : Env := { envOk with curl := .interrupt }

/-- C8 witness: the theorem applied to a concrete interrupted download. -/
theorem failed_download_removes_destination_witness :
    (download_alarm "t.tar.gz" "tsinghua" envCurlInterrupt fsEmpty).1 = .exited 1 ∧
    (download_alarm "t.tar.gz" "tsinghua" envCurlInterrupt fsEmpty).2.1 "t.tar.gz" = none :=
  failed_download_removes_destination "t.tar.gz" "tsinghua" envCurlInterrupt fsEmpty
    4096 (10 ^ 9) rfl (by decide) (by decide)

/-- C9: whenever the archive file already exists (with any positive size)
at its expected path, the orchestrator skips the fetch stage entirely:
the run performs no statvfs call, no space comparison and no transfer. -/
theorem existing_archive_skips_fetch (args : Args) (env : Env) (fs : FS) (n : Nat)
    (hex : fs tarFile = some n) (hpos : 0 < n) :
    ((mainRun args env fs).2.2.all (fun e => !e.isFetch)) = true := by
  unfold mainRun
  by_cases hm : args.mirror ∉ mirrorChoices
  · rw [if_pos hm]
    rfl
  · rw [if_neg hm]
    by_cases hd : (!env.depsOk) = true
    · rw [if_pos hd]
      rfl
    · rw [if_neg hd]
      dsimp only
      have ht : ¬ ((fs tarFile).isNone = true) := by rw [hex]; simp
      rw [if_neg ht]
      dsimp only
      rw [if_pos rfl]
      have hcf := create_image_no_fetch args.output args.size env fs
      rw [List.nil_append, List.all_cons, hcf]
      rfl

/-- C9 witness: the theorem applied to a run whose filesystem already
holds a non-empty archive. -/
theorem existing_archive_skips_fetch_witness :
    ((mainRun ⟨"alarm.qcow2", "128G", "tsinghua", false⟩ envOk fsWithImage).2.2.all
      (fun e => !e.isFetch)) = true :=
  existing_archive_skips_fetch ⟨"alarm.qcow2", "128G", "tsinghua", false⟩ envOk fsWithImage
    9 (by decide) (by decide)

/-- C10: the fetch stage calls statvfs on the directory component of the
destination path; for a destination with no directory component — exactly
what the orchestrator passes, since the hard-coded archive filename holds
no slash — that component is the empty string, and the statvfs failure on
the empty path escapes as an uncaught `FileNotFoundError` before any space
comparison or transfer, so the whole pipeline run dies there. -/
theorem bare_destination_statvfs_crash (out m : String) (env : Env) (fs : FS) (args : Args)
    (hb : '/' ∉ out.data)
    (hvfs : env.statvfs "" = .error .fileNotFoundError)
    (hdeps : env.depsOk = true) (hm : args.mirror ∈ mirrorChoices) (htar : fs tarFile = none) :
    pyDirname out = "" ∧
    download_alarm out m env fs = (.raised .fileNotFoundError, fs, [.statvfsCalled ""]) ∧
    mainRun args env fs = (.raised .fileNotFoundError, fs, [.depsChecked, .statvfsCalled ""]) := by
  have hdn : pyDirname out = "" := by
    unfold pyDirname
    rw [pyDirnameL_no_slash out.data hb]
  have hda : download_alarm out m env fs
      = (.raised .fileNotFoundError, fs, [.statvfsCalled ""]) := by
    unfold download_alarm
    rw [hdn, hvfs]
  refine ⟨hdn, hda, ?_⟩
  have hdat : download_alarm tarFile args.mirror env fs
      = (.raised .fileNotFoundError, fs, [.statvfsCalled ""]) := by
    unfold download_alarm
    rw [pyDirname_tarFile, hvfs]
  unfold mainRun
  rw [if_neg (by simp [hm])]
  rw [if_neg (by simp [hdeps])]
  dsimp only
  have hti : (fs tarFile).isNone = true := by rw [htar]; rfl
  rw [if_pos hti, hdat]
  dsimp only
  rw [if_neg (by decide : ¬ (Outcome.raised PyExc.fileNotFoundError = Outcome.done))]

/-- C10 witness: the theorem applied to the concrete bare archive filename
under the POSIX statvfs behaviour. -/
theorem bare_destination_statvfs_crash_witness :
    pyDirname "b.tar.gz" = "" ∧
    download_alarm "b.tar.gz" "tsinghua" envPosix fsEmpty
      = (.raised .fileNotFoundError, fsEmpty, [.statvfsCalled ""]) ∧
    mainRun ⟨"alarm.qcow2", "128G", "tsinghua", false⟩ envPosix fsEmpty
      = (.raised .fileNotFoundError, fsEmpty, [.depsChecked, .statvfsCalled ""]) :=
  bare_destination_statvfs_crash "b.tar.gz" "tsinghua" envPosix fsEmpty
    ⟨"alarm.qcow2", "128G", "tsinghua", false⟩ (by decide) rfl rfl (by decide) rfl
